import Mathlib

/-!
The entry point of gum and its console-mode guard (`main.go`).

A shallow embedding of `main.go`: the two console-mode functions
`saveConsoleModeForPowerShell` and `revertConsoleModeForPowerShell`, the
version string built in `main`, and the control flow of `main` itself
(deferred call, `os.Exit`, the mapping from the sub-command result to the
exit status).

The Windows console, `os.OpenFile`, `kong.Parse` and `ctx.Run` are the
environment of the program.  They are modelled as explicit data:

* `Console` is the state of the console input buffer together with the
  answers it gives to the three system calls the program makes;
* `ParseOutcome` is what `kong.Parse` does with the command line;
* the sub-command is a function on the environment returning an optional
  error.
-/

namespace Gum

/-! ## Go strings -/

/-- A Go string is a sequence of bytes; `len` and slicing count bytes. -/
abbrev GoString := List UInt8

/-- The bytes of a string literal of the source (UTF-8). -/
def goString (s : String) : GoString :=
  s.data.flatMap String.utf8EncodeChar

/-! ## The platform console -/

/-- A value of `windows.Handle`, kept as the three kinds of value the program
can hold: the zero value of the package variable, `InvalidHandle` (what
`Fd` gives on a nil file), and a handle on the console input buffer. -/
inductive Handle where
  | zero
  | InvalidHandle
  | conin
  deriving DecidableEq, Repr

/-- The file returned by `os.OpenFile`; `none` is the nil pointer that comes
with a non-nil error. -/
abbrev File := Option Handle

/-- Method `(*os.File).Fd`: a nil receiver yields `InvalidHandle`, it does not
dereference. -/
def File.Fd : File → Handle
  | none => Handle.InvalidHandle
  | some h => h

/-- Console mode flag `windows.ENABLE_VIRTUAL_TERMINAL_INPUT`. -/
def ENABLE_VIRTUAL_TERMINAL_INPUT : Nat := 0x200

/-- The console input buffer as the program sees it.

* `openable`: whether `os.OpenFile("CONIN$", ...)` succeeds;
* `readable`: whether `GetConsoleMode` succeeds on a console handle;
* `mode`: the current input mode (a 32-bit mask);
* `accepts`: the modes for which `SetConsoleMode` reports success;
* `writes`: every mode passed to `SetConsoleMode` on a console handle,
  oldest first. -/
structure Console where
  openable : Bool
  readable : Bool
  mode : Nat
  accepts : Nat → Bool
  writes : List Nat

/-- Call `os.OpenFile("CONIN$", os.O_RDWR, 0777)`: the file and whether the
error is nil. -/
def OpenFile (c : Console) : File × Bool :=
  if c.openable then (some Handle.conin, true) else (none, false)

/-- Call `windows.GetConsoleMode(h, &mode)`: `some m` when the error is nil and
`m` was stored through the pointer, `none` when it failed (nothing stored).
It fails on any handle that is not a console handle. -/
def GetConsoleMode (h : Handle) (c : Console) : Option Nat :=
  match h with
  | Handle.conin => if c.readable then some c.mode else none
  | _ => none

/-- Call `windows.SetConsoleMode(h, mode)`: the console afterwards and whether
the error is nil.  On a console input handle the requested mode is stored
whether or not it is accepted ("SetConsoleMode remembers invalid bits on input
handles", `main.go` lines 49-50); on any other handle nothing happens and the
call fails. -/
def SetConsoleMode (h : Handle) (mode : Nat) (c : Console) : Console × Bool :=
  match h with
  | Handle.conin =>
      ({ c with mode := mode, writes := c.writes ++ [mode] }, c.accepts mode)
  | _ => (c, false)

/-! ## Package variables -/

/-- The package-level variables of `main.go` used by the console guard. -/
structure Globals where
  vtInputSupported : Bool
  consoleInMode : Nat
  consoleHandle : Handle
  deriving DecidableEq, Repr

/-- The Go zero values the variables hold when `main` starts. -/
def Globals.init : Globals :=
  { vtInputSupported := false, consoleInMode := 0, consoleHandle := Handle.zero }

/-! ## The console guard -/

/-- Function `saveConsoleModeForPowerShell` (`main.go` lines 36-53). -/
def saveConsoleModeForPowerShell (g : Globals) (c : Console) : Globals × Console :=
  -- console, _ := os.OpenFile("CONIN$", os.O_RDWR, 0777)
  let console := (OpenFile c).1
  -- consoleHandle = windows.Handle(console.Fd())
  let g := { g with consoleHandle := File.Fd console }
  -- if err := windows.GetConsoleMode(consoleHandle, &consoleInMode); err == nil
  match GetConsoleMode g.consoleHandle c with
  | some m =>
      let g := { g with consoleInMode := m }
      -- if err = windows.SetConsoleMode(consoleHandle, consoleInMode|VT); err == nil
      let probe := SetConsoleMode g.consoleHandle (g.consoleInMode ||| ENABLE_VIRTUAL_TERMINAL_INPUT) c
      let g := if probe.2 then { g with vtInputSupported := true } else g
      -- windows.SetConsoleMode(consoleHandle, consoleInMode)
      (g, (SetConsoleMode g.consoleHandle g.consoleInMode probe.1).1)
  | none => (g, c)

/-- Function `revertConsoleModeForPowerShell` (`main.go` lines 55-73).  The
final `console.Close()` releases the file and touches neither the mode nor
the package variables. -/
def revertConsoleModeForPowerShell (g : Globals) (c : Console) : Globals × Console :=
  -- console, err := os.OpenFile("CONIN$", os.O_RDWR, 0777)
  let opened := OpenFile c
  if opened.2 then
    -- consoleHandle = windows.Handle(console.Fd())
    let g := { g with consoleHandle := File.Fd opened.1 }
    -- if vtInputSupported { consoleInMode = consoleInMode | VT }
    let g := if g.vtInputSupported then
        { g with consoleInMode := g.consoleInMode ||| ENABLE_VIRTUAL_TERMINAL_INPUT }
      else g
    -- windows.SetConsoleMode(consoleHandle, consoleInMode)
    (g, (SetConsoleMode g.consoleHandle g.consoleInMode c).1)
  else (g, c)

/-! ## The version string -/

/-- Constant `shaLen` (`main.go` line 18). -/
def shaLen : Nat := 7

/-- The part of `debug.BuildInfo` that `main` reads: `info.Main.Version` and
`info.Main.Sum`. -/
structure BuildInfo where
  mainVersion : GoString
  mainSum : GoString

/-- The value of the package variable `Version` after lines 84-90 of `main`.
`info` is the result of `debug.ReadBuildInfo()`, `none` when `ok` is false. -/
def resolveVersion (Version : GoString) (info : Option BuildInfo) : GoString :=
  if Version = [] then
    match info with
    | some i => if i.mainSum ≠ [] then i.mainVersion else goString "unknown (built from source)"
    | none => goString "unknown (built from source)"
  else Version

/-- The local `version` of `main` after lines 84-94: the string handed to
`kong.Vars` under the key `"version"`. -/
def versionString (Version CommitSHA : GoString) (info : Option BuildInfo) : GoString :=
  -- version := fmt.Sprintf("gum version %s", Version)
  let version := goString "gum version " ++ resolveVersion Version info
  -- if len(CommitSHA) >= shaLen { version += " (" + CommitSHA[:shaLen] + ")" }
  if CommitSHA.length ≥ shaLen then
    version ++ (goString " (" ++ CommitSHA.take shaLen ++ goString ")")
  else version

/-! ## The entry controller -/

/-- An error returned by `ctx.Run()`, as far as `main` inspects it. -/
structure GoError where
  /-- The text of `err.Error()`. -/
  message : GoString
  /-- The value of `errors.Is(err, exit.ErrAborted)`. -/
  isAborted : Bool

/-- What running the selected sub-command does: the console and the standard
output afterwards, and the error it returns (`none` for nil). -/
structure RunResult where
  console : Console
  stdout : GoString
  err : Option GoError

/-- What `kong.Parse` does with the command line.  On a parse error (and for
the help and version flags) kong terminates the process itself by calling
`os.Exit` and `Parse` never returns; otherwise it returns a context whose `Run`
executes the selected sub-command. -/
inductive ParseOutcome where
  | exited (status : Nat)
  | ctx (Run : Console → GoString → RunResult)

/-- The observable steps of a run of `main`, in program order. -/
inductive Event where
  | save
  | revert
  | parse
  | run
  | println (text : GoString)
  | osExit (status : Nat)
  deriving DecidableEq, Repr

/-- The state of the process and of its environment. -/
structure World where
  globals : Globals
  console : Console
  stdout : GoString
  trace : List Event

/-- The process at the start of `main`, attached to console `c`. -/
def World.start (c : Console) : World :=
  { globals := Globals.init, console := c, stdout := [], trace := [] }

/-- A call of `saveConsoleModeForPowerShell()` from `main`. -/
def World.callSave (w : World) : World :=
  let r := saveConsoleModeForPowerShell w.globals w.console
  { w with globals := r.1, console := r.2, trace := w.trace ++ [Event.save] }

/-- A call of `revertConsoleModeForPowerShell()` from `main`. -/
def World.callRevert (w : World) : World :=
  let r := revertConsoleModeForPowerShell w.globals w.console
  { w with globals := r.1, console := r.2, trace := w.trace ++ [Event.revert] }

/-- A call of `fmt.Println(err)`: the error text and a newline go to standard
output. -/
def World.Println (w : World) (err : GoError) : World :=
  { w with stdout := w.stdout ++ err.message ++ goString "\n",
           trace := w.trace ++ [Event.println err.message] }

/-- How the body of a Go function stops: by returning (deferred calls then
run) or by `os.Exit`, which ends the process at once and runs no deferred
call. -/
inductive Control where
  | returned
  | osExit (status : Nat)
  deriving DecidableEq, Repr

/-- The body of `main` (`main.go` lines 75-126) up to the point where it
returns or calls `os.Exit`.  `StatusAborted` is the constant
`exit.StatusAborted`; `kongParse` is `kong.Parse` applied to the command line,
as a function of the `"version"` variable it is given. -/
def mainBody (StatusAborted : Nat) (Version CommitSHA : GoString) (info : Option BuildInfo)
    (kongParse : GoString → ParseOutcome) (w : World) : World × Control :=
  -- saveConsoleModeForPowerShell()
  let w := w.callSave
  -- defer revertConsoleModeForPowerShell(): run by `main` below on return
  let version := versionString Version CommitSHA info
  -- ctx := kong.Parse(gum, ..., kong.Vars{"version": version, ...})
  match kongParse version with
  | ParseOutcome.exited status =>
      ({ w with trace := w.trace ++ [Event.parse, Event.osExit status] }, Control.osExit status)
  | ParseOutcome.ctx Run =>
      let w := { w with trace := w.trace ++ [Event.parse] }
      -- if err := ctx.Run(); err != nil
      let r := Run w.console w.stdout
      let w := { w with console := r.console, stdout := r.stdout, trace := w.trace ++ [Event.run] }
      match r.err with
      | some err =>
          if err.isAborted then
            -- revertConsoleModeForPowerShell(); os.Exit(exit.StatusAborted)
            let w := w.callRevert
            ({ w with trace := w.trace ++ [Event.osExit StatusAborted] },
              Control.osExit StatusAborted)
          else
            -- fmt.Println(err); revertConsoleModeForPowerShell(); os.Exit(1)
            let w := w.Println err
            let w := w.callRevert
            ({ w with trace := w.trace ++ [Event.osExit 1] }, Control.osExit 1)
      | none => (w, Control.returned)

/-- Function `main`: the body, then the deferred
`revertConsoleModeForPowerShell()` if the body returned.  The result is the
final state and the exit status of the process (0 when `main` returns). -/
def main (StatusAborted : Nat) (Version CommitSHA : GoString) (info : Option BuildInfo)
    (kongParse : GoString → ParseOutcome) (w : World) : World × Nat :=
  let r := mainBody StatusAborted Version CommitSHA info kongParse w
  match r.2 with
  | Control.returned => (r.1.callRevert, 0)
  | Control.osExit status => (r.1, status)

/-! ## Concrete environments used in the examples -/

/-- A console in mode 503 (0x1F7) that accepts every mode. -/
def consoleVT : Console :=
  { openable := true, readable := true, mode := 503, accepts := fun _ => true, writes := [] }

/-- A console in mode 503 that rejects the virtual-terminal input flag. -/
def consoleLegacy : Console :=
  { openable := true, readable := true, mode := 503,
    accepts := fun m => m &&& ENABLE_VIRTUAL_TERMINAL_INPUT == 0, writes := [] }

/-- A process without a reachable console: `CONIN$` cannot be opened. -/
def consoleDetached : Console :=
  { consoleVT with openable := false }

/-- A sub-command that leaves the environment alone and returns `err`. -/
def runReturning (err : Option GoError) : Console → GoString → RunResult :=
  fun c out => { console := c, stdout := out, err := err }

/-- The error of a user abort: `errors.Is(err, exit.ErrAborted)` holds. -/
def errAborted : GoError :=
  { message := goString "aborted", isAborted := true }

/-- A generic failure with message `boom`. -/
def errBoom : GoError :=
  { message := goString "boom", isAborted := false }

/-- Running `saveConsoleModeForPowerShell` and then
`revertConsoleModeForPowerShell`, nothing else touching the console in
between. -/
def saveThenRevert (g : Globals) (c : Console) : Globals × Console :=
  revertConsoleModeForPowerShell (saveConsoleModeForPowerShell g c).1
    (saveConsoleModeForPowerShell g c).2

/-- Two calls of `revertConsoleModeForPowerShell` in a row. -/
def revertTwice (g : Globals) (c : Console) : Globals × Console :=
  revertConsoleModeForPowerShell (revertConsoleModeForPowerShell g c).1
    (revertConsoleModeForPowerShell g c).2

/-! ## Helper facts -/

theorem lor_vt_idem (m : Nat) :
    (m ||| ENABLE_VIRTUAL_TERMINAL_INPUT) ||| ENABLE_VIRTUAL_TERMINAL_INPUT
      = m ||| ENABLE_VIRTUAL_TERMINAL_INPUT := by
  rw [Nat.lor_assoc]
  rfl

theorem save_of_openable_readable (g : Globals) (c : Console)
    (ho : c.openable = true) (hr : c.readable = true) :
    saveConsoleModeForPowerShell g c =
      ({ vtInputSupported :=
           g.vtInputSupported || c.accepts (c.mode ||| ENABLE_VIRTUAL_TERMINAL_INPUT),
         consoleInMode := c.mode,
         consoleHandle := Handle.conin },
       { c with mode := c.mode,
                writes := c.writes ++ [c.mode ||| ENABLE_VIRTUAL_TERMINAL_INPUT] ++ [c.mode] }) := by
  cases hacc : c.accepts (c.mode ||| ENABLE_VIRTUAL_TERMINAL_INPUT) <;>
    simp [saveConsoleModeForPowerShell, OpenFile, File.Fd, GetConsoleMode, SetConsoleMode,
      ho, hr, hacc]

theorem save_of_not_openable (g : Globals) (c : Console) (ho : c.openable = false) :
    saveConsoleModeForPowerShell g c
      = ({ g with consoleHandle := Handle.InvalidHandle }, c) := by
  simp [saveConsoleModeForPowerShell, OpenFile, File.Fd, GetConsoleMode, ho]

theorem revert_of_openable (g : Globals) (c : Console) (ho : c.openable = true) :
    revertConsoleModeForPowerShell g c =
      ({ vtInputSupported := g.vtInputSupported,
         consoleInMode :=
           if g.vtInputSupported then g.consoleInMode ||| ENABLE_VIRTUAL_TERMINAL_INPUT
           else g.consoleInMode,
         consoleHandle := Handle.conin },
       { c with
         mode := if g.vtInputSupported then g.consoleInMode ||| ENABLE_VIRTUAL_TERMINAL_INPUT
                 else g.consoleInMode,
         writes := c.writes ++
           [if g.vtInputSupported then g.consoleInMode ||| ENABLE_VIRTUAL_TERMINAL_INPUT
            else g.consoleInMode] }) := by
  cases hvt : g.vtInputSupported <;>
    simp [revertConsoleModeForPowerShell, OpenFile, File.Fd, SetConsoleMode, ho, hvt]

theorem revert_of_not_openable (g : Globals) (c : Console) (ho : c.openable = false) :
    revertConsoleModeForPowerShell g c = (g, c) := by
  simp [revertConsoleModeForPowerShell, OpenFile, ho]

/-! ## The console guard: save and restore -/

/-- C1: started with the probe flag unset (as at process start), on a console
that can be opened and read, `saveConsoleModeForPowerShell` followed by
`revertConsoleModeForPowerShell` leaves the console in the initial mode OR-ed
with `ENABLE_VIRTUAL_TERMINAL_INPUT` when the probe write was accepted, and in
exactly the initial mode when it was rejected; the flag recorded by save is the
outcome of the probe. -/
theorem save_then_revert_mode (g : Globals) (c : Console)
    (hvt : g.vtInputSupported = false) (ho : c.openable = true) (hr : c.readable = true) :
    (saveConsoleModeForPowerShell g c).1.vtInputSupported
        = c.accepts (c.mode ||| ENABLE_VIRTUAL_TERMINAL_INPUT) ∧
    (saveThenRevert g c).2.mode
        = if c.accepts (c.mode ||| ENABLE_VIRTUAL_TERMINAL_INPUT) then
            c.mode ||| ENABLE_VIRTUAL_TERMINAL_INPUT
          else c.mode := by
  have hs := save_of_openable_readable g c ho hr
  constructor
  · rw [hs]; simp [hvt]
  · unfold saveThenRevert
    rw [hs, revert_of_openable _ _ (by simpa using ho)]
    simp [hvt]

/-- Witness of C1 on a console in mode 503 that accepts the flag: the final
mode is 503 OR 0x200 = 1015. -/
theorem save_then_revert_mode_witness :
    Globals.init.vtInputSupported = false ∧ consoleVT.openable = true ∧
    consoleVT.readable = true ∧
    (saveThenRevert Globals.init consoleVT).2.mode = 1015 :=
  ⟨rfl, rfl, rfl, (save_then_revert_mode Globals.init consoleVT rfl rfl rfl).2⟩

/-- C3: on a console that can be opened and read, and whatever the outcome of
the probe write, when `saveConsoleModeForPowerShell` returns the console mode
is the initial mode again and `consoleInMode` holds it; the function issued
exactly two writes, the probe and then the initial mode. -/
theorem save_leaves_initial_mode (g : Globals) (c : Console)
    (ho : c.openable = true) (hr : c.readable = true) :
    (saveConsoleModeForPowerShell g c).2.mode = c.mode ∧
    (saveConsoleModeForPowerShell g c).1.consoleInMode = c.mode ∧
    (saveConsoleModeForPowerShell g c).2.writes
      = c.writes ++ [c.mode ||| ENABLE_VIRTUAL_TERMINAL_INPUT, c.mode] := by
  rw [save_of_openable_readable g c ho hr]
  simp

/-- Witness of C3 on a console in mode 503 that rejects the flag. -/
theorem save_leaves_initial_mode_witness :
    consoleLegacy.openable = true ∧ consoleLegacy.readable = true ∧
    (saveConsoleModeForPowerShell Globals.init consoleLegacy).2.mode = 503 ∧
    (saveConsoleModeForPowerShell Globals.init consoleLegacy).1.consoleInMode = 503 ∧
    (saveConsoleModeForPowerShell Globals.init consoleLegacy).2.writes = [1015, 503] :=
  ⟨rfl, rfl, save_leaves_initial_mode Globals.init consoleLegacy rfl rfl⟩

/-- C6: `revertConsoleModeForPowerShell` is idempotent: for every value of the
package variables and every console, two calls in a row leave the same package
variables (snapshot and handle) and the same console mode as one call.  Both
calls return: the function is total. -/
theorem revert_idempotent (g : Globals) (c : Console) :
    (revertTwice g c).1 = (revertConsoleModeForPowerShell g c).1 ∧
    (revertTwice g c).2.mode = (revertConsoleModeForPowerShell g c).2.mode := by
  unfold revertTwice
  cases ho : c.openable
  · rw [revert_of_not_openable g c ho, revert_of_not_openable g c ho]
    simp
  · rw [revert_of_openable g c ho, revert_of_openable _ _ (by simpa using ho)]
    cases hvt : g.vtInputSupported <;> simp [lor_vt_idem]

/-- C7 (evaluation at the failing input): the console cannot be opened when
`saveConsoleModeForPowerShell` runs, so nothing is saved and nothing is
written; when the console, then in mode 503, can be opened at the later call of
`revertConsoleModeForPowerShell`, that call writes the never-saved zero mode
and the console ends in mode 0. -/
theorem revert_after_failed_save_writes_zero :
    (saveConsoleModeForPowerShell Globals.init consoleDetached).2.writes = [] ∧
    (saveConsoleModeForPowerShell Globals.init consoleDetached).1.consoleInMode = 0 ∧
    consoleVT.mode = 503 ∧
    (revertConsoleModeForPowerShell
        (saveConsoleModeForPowerShell Globals.init consoleDetached).1 consoleVT).2.writes = [0] ∧
    (revertConsoleModeForPowerShell
        (saveConsoleModeForPowerShell Globals.init consoleDetached).1 consoleVT).2.mode = 0 :=
  ⟨rfl, rfl, rfl, rfl, rfl⟩

/-- C8: when `CONIN$` cannot be opened, `saveConsoleModeForPowerShell` goes
through the nil file (`Fd` gives `InvalidHandle`, `GetConsoleMode` fails) and
returns with the console untouched (no write, same mode) and the snapshot
`consoleInMode`, `vtInputSupported` unchanged, and
`revertConsoleModeForPowerShell`, before or after it, changes nothing at
all. -/
theorem guard_noop_when_not_openable (g : Globals) (c : Console)
    (ho : c.openable = false) :
    (saveConsoleModeForPowerShell g c).2 = c ∧
    (saveConsoleModeForPowerShell g c).1.consoleInMode = g.consoleInMode ∧
    (saveConsoleModeForPowerShell g c).1.vtInputSupported = g.vtInputSupported ∧
    (saveConsoleModeForPowerShell g c).1.consoleHandle = Handle.InvalidHandle ∧
    revertConsoleModeForPowerShell g c = (g, c) ∧
    saveThenRevert g c = ((saveConsoleModeForPowerShell g c).1, c) := by
  unfold saveThenRevert
  rw [save_of_not_openable g c ho, revert_of_not_openable g c ho,
    revert_of_not_openable _ c ho]
  simp

/-- Witness of C8 on a process without a reachable console, from the initial
package variables. -/
theorem guard_noop_when_not_openable_witness :
    consoleDetached.openable = false ∧
    (saveConsoleModeForPowerShell Globals.init consoleDetached).1.consoleInMode = 0 ∧
    (saveConsoleModeForPowerShell Globals.init consoleDetached).1.vtInputSupported = false ∧
    (saveThenRevert Globals.init consoleDetached).2 = consoleDetached :=
  ⟨rfl,
   (guard_noop_when_not_openable Globals.init consoleDetached rfl).2.1,
   (guard_noop_when_not_openable Globals.init consoleDetached rfl).2.2.1,
   by rw [(guard_noop_when_not_openable Globals.init consoleDetached rfl).2.2.2.2.2]⟩

/-! ## The entry controller: termination paths -/

/-- When `kong.Parse` returns a context, every path of `main` calls
`revertConsoleModeForPowerShell` exactly once, after the save and the
sub-command and before the process ends. -/
theorem main_ctx_trace (StatusAborted : Nat) (Version CommitSHA : GoString)
    (info : Option BuildInfo) (kongParse : GoString → ParseOutcome)
    (Run : Console → GoString → RunResult) (c : Console)
    (hp : kongParse (versionString Version CommitSHA info) = ParseOutcome.ctx Run) :
    (main StatusAborted Version CommitSHA info kongParse (World.start c)).1.trace =
      match (Run (World.start c).callSave.console []).err with
      | none => [Event.save, Event.parse, Event.run, Event.revert]
      | some err =>
          if err.isAborted then
            [Event.save, Event.parse, Event.run, Event.revert, Event.osExit StatusAborted]
          else
            [Event.save, Event.parse, Event.run, Event.println err.message, Event.revert,
              Event.osExit 1] := by
  have hstd : (World.start c).callSave.stdout = [] := rfl
  cases he : (Run (World.start c).callSave.console []).err with
  | none =>
      simp [main, mainBody, hp, hstd, he, World.callRevert]
      simp [World.callSave, World.start]
  | some err =>
      cases ha : err.isAborted
      · simp [main, mainBody, hp, hstd, he, ha, World.callRevert, World.Println]
        simp [World.callSave, World.start]
      · simp [main, mainBody, hp, hstd, he, ha, World.callRevert]
        simp [World.callSave, World.start]

/-- C2 (evaluation at the failing input): when `kong.Parse` ends the process
itself, as it does on a parse error, `main` has called
`saveConsoleModeForPowerShell` but the process ends with the status chosen by
kong without any call of `revertConsoleModeForPowerShell`: the deferred call
does not run under `os.Exit` and this path has no explicit call. -/
theorem main_parse_exit_skips_revert (StatusAborted status : Nat)
    (Version CommitSHA : GoString) (info : Option BuildInfo) (c : Console) :
    (main StatusAborted Version CommitSHA info (fun _ => ParseOutcome.exited status)
        (World.start c)).1.trace = [Event.save, Event.parse, Event.osExit status] ∧
    Event.revert ∉ (main StatusAborted Version CommitSHA info
        (fun _ => ParseOutcome.exited status) (World.start c)).1.trace ∧
    (main StatusAborted Version CommitSHA info (fun _ => ParseOutcome.exited status)
        (World.start c)).2 = status := by
  simp [main, mainBody, World.callSave, World.start]

/-! ## The entry controller: exit status -/

/-- C4: when the sub-command returns an error for which
`errors.Is(err, exit.ErrAborted)` holds, `main` ends the process with status
`exit.StatusAborted` and writes nothing to standard output: the output is what
the sub-command left, and no `fmt.Println` occurs in the run. -/
theorem main_aborted_status (StatusAborted : Nat) (Version CommitSHA : GoString)
    (info : Option BuildInfo) (kongParse : GoString → ParseOutcome)
    (Run : Console → GoString → RunResult) (w : World) (err : GoError)
    (hp : kongParse (versionString Version CommitSHA info) = ParseOutcome.ctx Run)
    (he : (Run w.callSave.console w.stdout).err = some err)
    (ha : err.isAborted = true) :
    (main StatusAborted Version CommitSHA info kongParse w).2 = StatusAborted ∧
    (main StatusAborted Version CommitSHA info kongParse w).1.stdout
      = (Run w.callSave.console w.stdout).stdout ∧
    (main StatusAborted Version CommitSHA info kongParse w).1.trace
      = w.trace ++ [Event.save, Event.parse, Event.run, Event.revert,
          Event.osExit StatusAborted] := by
  have hstd : w.callSave.stdout = w.stdout := rfl
  simp [main, mainBody, hp, hstd, he, ha, World.callRevert]
  simp [World.callSave]

/-- Witness of C4: the sub-command returns the abort error, the reserved status
is 130; the process ends with status 130 and an empty standard output. -/
theorem main_aborted_status_witness :
    errAborted.isAborted = true ∧
    (main 130 [] [] none (fun _ => ParseOutcome.ctx (runReturning (some errAborted)))
      (World.start consoleVT)).2 = 130 ∧
    (main 130 [] [] none (fun _ => ParseOutcome.ctx (runReturning (some errAborted)))
      (World.start consoleVT)).1.stdout = [] :=
  ⟨rfl,
   (main_aborted_status 130 [] [] none
      (fun _ => ParseOutcome.ctx (runReturning (some errAborted)))
      (runReturning (some errAborted)) (World.start consoleVT) errAborted rfl rfl rfl).1,
   (main_aborted_status 130 [] [] none
      (fun _ => ParseOutcome.ctx (runReturning (some errAborted)))
      (runReturning (some errAborted)) (World.start consoleVT) errAborted rfl rfl rfl).2.1⟩

/-- C5: when the sub-command returns an error that is not an abort, `main`
prints the error text followed by a newline on standard output, then calls
`revertConsoleModeForPowerShell`, then ends the process with status 1. -/
theorem main_failed_status (StatusAborted : Nat) (Version CommitSHA : GoString)
    (info : Option BuildInfo) (kongParse : GoString → ParseOutcome)
    (Run : Console → GoString → RunResult) (w : World) (err : GoError)
    (hp : kongParse (versionString Version CommitSHA info) = ParseOutcome.ctx Run)
    (he : (Run w.callSave.console w.stdout).err = some err)
    (ha : err.isAborted = false) :
    (main StatusAborted Version CommitSHA info kongParse w).2 = 1 ∧
    (main StatusAborted Version CommitSHA info kongParse w).1.stdout
      = (Run w.callSave.console w.stdout).stdout ++ err.message ++ goString "\n" ∧
    (main StatusAborted Version CommitSHA info kongParse w).1.trace
      = w.trace ++ [Event.save, Event.parse, Event.run, Event.println err.message,
          Event.revert, Event.osExit 1] := by
  have hstd : w.callSave.stdout = w.stdout := rfl
  simp [main, mainBody, hp, hstd, he, ha, World.callRevert, World.Println]
  simp [World.callSave]

/-- Witness of C5: the sub-command fails with message `boom`; the process ends
with status 1 and standard output `boom` followed by a newline. -/
theorem main_failed_status_witness :
    errBoom.isAborted = false ∧
    (main 130 [] [] none (fun _ => ParseOutcome.ctx (runReturning (some errBoom)))
      (World.start consoleVT)).2 = 1 ∧
    (main 130 [] [] none (fun _ => ParseOutcome.ctx (runReturning (some errBoom)))
      (World.start consoleVT)).1.stdout = goString "boom\n" :=
  ⟨rfl,
   (main_failed_status 130 [] [] none
      (fun _ => ParseOutcome.ctx (runReturning (some errBoom)))
      (runReturning (some errBoom)) (World.start consoleVT) errBoom rfl rfl rfl).1,
   ((main_failed_status 130 [] [] none
      (fun _ => ParseOutcome.ctx (runReturning (some errBoom)))
      (runReturning (some errBoom)) (World.start consoleVT) errBoom rfl rfl rfl).2.1).trans
     (by decide)⟩

/-! ## The version string -/

/-- C9: with `len` counting the bytes of the Go string: when `CommitSHA` is
shorter than 7 the version string is `gum version ` followed by the resolved
`Version` and nothing else; when it has 7 or more it is that text followed by
` (`, the first 7 bytes of `CommitSHA`, and `)`.  A non-empty `Version` is
used as it is. -/
theorem versionString_commit_suffix (Version CommitSHA : GoString)
    (info : Option BuildInfo) :
    (CommitSHA.length < 7 →
      versionString Version CommitSHA info
        = goString "gum version " ++ resolveVersion Version info) ∧
    (7 ≤ CommitSHA.length →
      versionString Version CommitSHA info
        = goString "gum version " ++ resolveVersion Version info
            ++ (goString " (" ++ CommitSHA.take 7 ++ goString ")") ∧
      (CommitSHA.take 7).length = 7 ∧ CommitSHA.take 7 <+: CommitSHA) ∧
    (Version ≠ [] → resolveVersion Version info = Version) := by
  refine ⟨fun h => ?_, fun h => ⟨?_, ?_, List.take_prefix 7 CommitSHA⟩, fun h => ?_⟩
  · simp [versionString, shaLen, Nat.not_le.mpr h]
  · simp [versionString, shaLen, h]
  · simp [List.length_take, h]
  · simp [resolveVersion, h]

/-- Witness of C9: version `v1.2` with a ten-byte commit gives
`gum version v1.2 (0123456)`, and with a six-byte commit gives
`gum version v1.2`. -/
theorem versionString_commit_suffix_witness :
    versionString (goString "v1.2") (goString "0123456789") none
      = goString "gum version v1.2 (0123456)" ∧
    versionString (goString "v1.2") (goString "012345") none
      = goString "gum version v1.2" :=
  ⟨((versionString_commit_suffix (goString "v1.2") (goString "0123456789") none).2.1
      (by decide)).1.trans (by decide),
   ((versionString_commit_suffix (goString "v1.2") (goString "012345") none).1
      (by decide)).trans (by decide)⟩

/-- C10 as stated fails: with no injected version, no build information and no
commit, the string handed to kong as `version` is not the bare placeholder. -/
theorem versionString_placeholder_counterexample :
    versionString [] [] none ≠ goString "unknown (built from source)" := by
  decide

/-- C10 amended: with `Version` empty, no usable build information
(`debug.ReadBuildInfo` fails or `Main.Sum` is empty) and a commit shorter than 7
bytes, the variable `Version` becomes the placeholder
`unknown (built from source)` and the string handed to kong as `version` is
`gum version unknown (built from source)`. -/
theorem versionString_placeholder (Version CommitSHA : GoString) (info : Option BuildInfo)
    (hv : Version = []) (hi : ∀ i, info = some i → i.mainSum = [])
    (hc : CommitSHA.length < shaLen) :
    resolveVersion Version info = goString "unknown (built from source)" ∧
    versionString Version CommitSHA info
      = goString "gum version " ++ goString "unknown (built from source)" := by
  have hr : resolveVersion Version info = goString "unknown (built from source)" := by
    cases info with
    | none => simp [resolveVersion, hv]
    | some i => simp [resolveVersion, hv, hi i rfl]
  refine ⟨hr, ?_⟩
  simp [versionString, Nat.not_le.mpr hc, hr]

/-- Witness of C10 amended: nothing injected, build information with an empty
`Main.Sum`, commit `abc`. -/
theorem versionString_placeholder_witness :
    versionString [] (goString "abc") (some { mainVersion := goString "(devel)", mainSum := [] })
      = goString "gum version unknown (built from source)" :=
  ((versionString_placeholder [] (goString "abc")
      (some { mainVersion := goString "(devel)", mainSum := [] }) rfl
      (fun i h => by cases h; rfl) (by decide)).2).trans (by decide)

end Gum
